import Mathlib

/-!
Verification development for the cafe24-automation-hub repository.

Shallow embedding of the token lifecycle and resilient request pipeline:
* `src/src/core/token_manager.py` (`TokenManager`): encrypted token storage
  with an optional fast cache (Redis) and a durable file store, lazy expiry.
* `src/src/core/auth_manager.py` (`AuthManager`): refresh flow and
  `get_valid_token` with the 300-second safety margin.
* `src/src/api/client.py` (`Cafe24Client`): the `request` retry pipeline and
  the `_handle_rate_limit` self-throttle.

Timestamps are modelled as integers (seconds); `datetime.now()` becomes an
explicit `now : Int` parameter.  Side effects (HTTP attempts, sleeps, token
refreshes) are recorded as explicit event traces.
-/

namespace Cafe24

/-! ### Symmetric cipher

Modelled from the spec: the Fernet symmetric cipher from the external
`cryptography` package (`TokenManager._init_cipher` merely wraps it; the
cipher implementation is not part of this repository).  The spec requires an
invertible symmetric cipher keyed by the configured key: "for all strings S
and valid keys K, `decrypt(encrypt(S, K), K) == S`".  We model it as a
keyed shift of the code points of the plaintext; all that the claims use is
that it is key-parameterised and invertible. -/

def encrypt (key : Nat) (s : String) : List Nat :=
  s.data.map (fun c => c.toNat + key)

def decrypt (key : Nat) (ct : List Nat) : String :=
  String.mk (ct.map (fun n => Char.ofNat (n - key)))

/-! ### Token store (`src/src/core/token_manager.py`)

A persisted record, as built in `save_token`: the `token` field holds the
ciphertext, `expires_at = now + expires_in`.  The open metadata map
(`additional_data`) is not used by any claim and is omitted. -/

structure TokenData where
  token : List Nat
  expiresAt : Int
  createdAt : Int
  type : String
deriving Repr, DecidableEq

/-- The two backing stores: `redis = none` models an unavailable fast cache
(`_init_redis` returned `None`); the file store is the mapping held in the
encrypted file at `storage_path`.  Python dicts become association lists. -/
structure TMState where
  redis : Option (List (String × TokenData))
  file : List (String × TokenData)
deriving Repr, DecidableEq

/-- Dictionary lookup on a backing store. -/
def lookupStore (l : List (String × TokenData)) (k : String) : Option TokenData :=
  l.lookup k

/-- Dictionary assignment (`tokens[token_type] = data`). -/
def storeSet (k : String) (v : TokenData) (l : List (String × TokenData)) :
    List (String × TokenData) :=
  (k, v) :: l.filter (fun p => p.1 != k)

/-- Dictionary deletion (`del tokens[token_type]`, `redis.delete(key)`). -/
def storeDel (k : String) (l : List (String × TokenData)) :
    List (String × TokenData) :=
  l.filter (fun p => p.1 != k)

/-- `TokenManager.save_token`: encrypts the secret, computes
`expires_at = now + expires_in`, writes to Redis when available (`setex`)
and always to the file.  Returns the success flag and the new state. -/
def save_token (key : Nat) (now : Int) (tokenType : String) (token : String)
    (expiresIn : Int) (st : TMState) : Bool × TMState :=
  let data : TokenData :=
    { token := encrypt key token
      expiresAt := now + expiresIn
      createdAt := now
      type := tokenType }
  (true, { redis := st.redis.map (storeSet tokenType data)
           file := storeSet tokenType data st.file })

/-- `TokenManager.delete_token`: removes the record from Redis (when
available) and from the file store. -/
def delete_token (tokenType : String) (st : TMState) : Bool × TMState :=
  (true, { redis := st.redis.map (storeDel tokenType)
           file := storeDel tokenType st.file })

/-- The record `get_token` operates on: Redis first, file as fallback. -/
def tmGet (st : TMState) (tokenType : String) : Option TokenData :=
  match st.redis with
  | some r =>
    match lookupStore r tokenType with
    | some d => some d
    | none => lookupStore st.file tokenType
  | none => lookupStore st.file tokenType

/-- `TokenManager.get_token`: reads Redis first, falls back to the file;
if `datetime.now() > expires_at` the record is deleted (`delete_token`) and
`None` is returned (lazy expiry); otherwise the decrypted secret is
returned and the state is unchanged. -/
def get_token (key : Nat) (now : Int) (tokenType : String) (st : TMState) :
    Option String × TMState :=
  match tmGet st tokenType with
  | none => (none, st)
  | some d =>
    if d.expiresAt < now then
      (none, (delete_token tokenType st).2)
    else
      (some (decrypt key d.token), st)

/-- Metadata snapshot computed by `TokenManager.get_token_info`. -/
structure TokenInfo where
  isExpired : Bool
  expiresInSeconds : Int
deriving Repr, DecidableEq

/-- `TokenManager.get_token_info`: when Redis is available it reads only
Redis, otherwise only the file (no fallback chain, unlike `get_token`);
no deletion happens here. -/
def get_token_info (now : Int) (tokenType : String) (st : TMState) :
    Option TokenInfo :=
  let data :=
    match st.redis with
    | some r => lookupStore r tokenType
    | none => lookupStore st.file tokenType
  match data with
  | none => none
  | some d => some { isExpired := d.expiresAt < now
                     expiresInSeconds := d.expiresAt - now }

/-- `TokenManager.clear_all`: deletes every `cafe24:token:*` key from Redis
and unlinks the storage file. -/
def clear_all (st : TMState) : Bool × TMState :=
  (true, { redis := st.redis.map (fun _ => []), file := [] })

/-! ### Authentication manager (`src/src/core/auth_manager.py`) -/

/-- Typed failures of the auth layer.  `tokenExpired` models
`TokenExpiredError`, which in `src/src/core/exceptions.py` is a subclass of
`AuthenticationError`. -/
inductive AuthErr where
  | tokenExpired (msg : String)
  | authError (msg : String)
deriving Repr, DecidableEq

/-- Outcome of the upstream `POST {base}/oauth/token` refresh call inside
`refresh_access_token`:
* `ok` — 2xx response whose JSON parsed; `accessToken = none` models a
  response body missing the `access_token` key (a later `KeyError`);
* `httpStatusError` — `response.raise_for_status()` raised
  `httpx.HTTPStatusError` (non-2xx status);
* `exn` — any other exception (connect/timeout failure, JSON parse error),
  caught by the generic `except Exception` handler. -/
inductive RefreshUpstream where
  | ok (accessToken : Option String) (expiresIn : Option Int)
       (refreshToken : Option String)
  | httpStatusError (status : Nat)
  | exn (msg : String)
deriving Repr, DecidableEq

/-- `AuthManager._save_tokens`: persists the access token (TTL from the
response, default 7200) when present, then the refresh token (fixed TTL of
2592000 seconds = 30 days) when present. -/
def saveTokens (key : Nat) (now : Int) (accessToken : Option String)
    (expiresIn : Option Int) (refreshToken : Option String) (st : TMState) :
    TMState :=
  let st1 :=
    match accessToken with
    | some a => (save_token key now "access" a (expiresIn.getD 7200) st).2
    | none => st
  match refreshToken with
  | some r => (save_token key now "refresh" r 2592000 st1).2
  | none => st1

/-- `AuthManager.refresh_access_token`: requires a stored refresh token
(`TokenExpiredError` when absent); on upstream HTTP-status rejection it
clears all tokens and raises `TokenExpiredError`; on any other exception of
the refresh call it raises `AuthenticationError` (tokens untouched).  On
success it persists the new token set and returns the access token; a body
without `access_token` raises `KeyError`, wrapped by the generic handler
into `AuthenticationError` (tokens saved so far are kept). -/
def refresh_access_token (key : Nat) (now : Int) (upstream : RefreshUpstream)
    (st : TMState) : Except AuthErr String × TMState :=
  match get_token key now "refresh" st with
  | (none, st1) =>
    (Except.error
      (AuthErr.tokenExpired "No refresh token available. Please re-authenticate."),
     st1)
  | (some _, st1) =>
    match upstream with
    | RefreshUpstream.ok accessToken expiresIn refreshToken =>
      let st2 := saveTokens key now accessToken expiresIn refreshToken st1
      match accessToken with
      | some a => (Except.ok a, st2)
      | none =>
        (Except.error (AuthErr.authError "Token refresh failed: KeyError"), st2)
    | RefreshUpstream.httpStatusError _ =>
      (Except.error (AuthErr.tokenExpired "Token refresh failed. Please re-authenticate."),
       (clear_all st1).2)
    | RefreshUpstream.exn m =>
      (Except.error (AuthErr.authError ("Token refresh failed: " ++ m)), st1)

/-- `AuthManager.get_valid_token`: returns the stored access token when
`get_token_info` reports `expires_in_seconds > 300`; otherwise calls
`refresh_access_token` and returns its outcome; raises
`AuthenticationError` when `get_token` finds no access token.  The third
component records whether the refresh operation was invoked. -/
def get_valid_token (key : Nat) (now : Int) (upstream : RefreshUpstream)
    (st : TMState) : Except AuthErr String × TMState × Bool :=
  match get_token key now "access" st with
  | (some tok, st1) =>
    match get_token_info now "access" st1 with
    | some info =>
      if 300 < info.expiresInSeconds then (Except.ok tok, st1, false)
      else
        let r := refresh_access_token key now upstream st1
        (r.1, r.2, true)
    | none =>
      let r := refresh_access_token key now upstream st1
      (r.1, r.2, true)
  | (none, st1) =>
    (Except.error
      (AuthErr.authError
        "No valid access token. Please authenticate using the authorization URL."),
     st1, false)

/-! ### Request pipeline (`src/src/api/client.py`) -/

/-- Observable side effects of one outer `Cafe24Client.request` call:
HTTP attempts (`session.request`), `asyncio.sleep` durations, and
invocations of `auth_manager.refresh_access_token`. -/
inductive Ev where
  | attempt (status : Nat)
  | sleep (secs : Int)
  | refresh
deriving Repr, DecidableEq

/-- One scripted HTTP response: status code, optional `Retry-After` header,
and the parsed body message (`error_data.get('message', ...)` / the JSON
payload, which no claim inspects further). -/
structure Resp where
  status : Nat
  retryAfter : Option Nat
  msg : String
deriving Repr, DecidableEq

/-- The typed exceptions of `src/src/core/exceptions.py` that can flow
through `request`.  `RateLimitError` subclasses `APIError`;
`AuthenticationError` (with subclass `TokenExpiredError`) and
`ValidationError` are the two classes exempted from the generic retry. -/
inductive PyExc where
  | apiError (statusCode : Option Nat) (responseData : Option String) (msg : String)
  | rateLimitError (msg : String)
  | authenticationError (msg : String)
  | validationError (msg : String)
  | networkError (msg : String)
deriving Repr, DecidableEq

/-- Python `str(e)` — each exception class stores its message. -/
def PyExc.toStr : PyExc → String
  | PyExc.apiError _ _ m => m
  | PyExc.rateLimitError m => m
  | PyExc.authenticationError m => m
  | PyExc.validationError m => m
  | PyExc.networkError m => m

/-- `isinstance(e, (AuthenticationError, ValidationError))` in the generic
`except Exception` handler of `request`. -/
def PyExc.isAuthOrValidation : PyExc → Bool
  | PyExc.authenticationError _ => true
  | PyExc.validationError _ => true
  | _ => false

/-- Outcome of one call frame: `ret v` is an ordinary Python `return`
(`ret none` is the implicit `return None` when the status-classification
chain falls through); `exn e` is an escaping exception. -/
inductive PyResult where
  | ret (v : Option String)
  | exn (e : PyExc)
deriving Repr, DecidableEq

/-- A frame's outcome together with its event trace and the index of the
next unconsumed scripted response. -/
structure ReqOut where
  result : PyResult
  events : List Ev
  nextIdx : Nat
deriving Repr, DecidableEq

/-- `Cafe24Client.request`, status-classification and retry logic.

`script i` is the response to the `i`-th HTTP attempt of the outer call;
`refreshOk` says whether `auth_manager.refresh_access_token()` succeeds in
the 401 branch; `maxRetries` is `settings.max_retries`; `rc` is
`retry_count` (an `Int`: Python lets it go negative via `retry_count - 1`).

The whole status chain sits inside `try: ... except Exception as e:`, so the
typed errors raised by the chain itself are caught by that handler: it
retries after a flat 1-second sleep when `retry_count > 0` and the exception
is not an `AuthenticationError`/`ValidationError`, and otherwise re-raises
as `NetworkError(str(e))`.  Exceptions raised by a recursive retry made
inside the `try` are caught by the *current* frame's handler as well, while
a retry made inside the handler propagates its failure unhandled.  The 401
branch wraps its refresh-and-retry in an inner `try` whose handler turns any
failure into `AuthenticationError(f"Authentication failed: {e}")`, which the
outer handler then converts to `NetworkError`.  The `_handle_rate_limit`
call and the auth-header resolution preceding the `try` block are modelled
separately (`handleRateLimit`, `get_valid_token`). -/
def request (script : Nat → Resp) (refreshOk : Bool) (maxRetries : Nat)
    (rc : Int) (idx : Nat) : ReqOut :=
  if (script idx).status = 200 ∨ (script idx).status = 201 then
    { result := PyResult.ret (some (script idx).msg),
      events := [Ev.attempt (script idx).status], nextIdx := idx + 1 }
  else if (script idx).status = 204 then
    { result := PyResult.ret (some "No Content"),
      events := [Ev.attempt (script idx).status], nextIdx := idx + 1 }
  else if (script idx).status = 401 then
    if hmax : rc = (maxRetries : Int) then
      if refreshOk then
        match request script refreshOk maxRetries (rc - 1) (idx + 1) with
        | ⟨PyResult.ret v, evs, ni⟩ =>
          { result := PyResult.ret v,
            events := Ev.attempt (script idx).status :: Ev.refresh :: evs,
            nextIdx := ni }
        | ⟨PyResult.exn e, evs, ni⟩ =>
          { result := PyResult.exn
              (PyExc.networkError ("Authentication failed: " ++ e.toStr)),
            events := Ev.attempt (script idx).status :: Ev.refresh :: evs,
            nextIdx := ni }
      else
        { result := PyResult.exn
            (PyExc.networkError "Authentication failed: token refresh error"),
          events := [Ev.attempt (script idx).status, Ev.refresh],
          nextIdx := idx + 1 }
    else
      { result := PyResult.exn (PyExc.networkError "Invalid or expired token"),
        events := [Ev.attempt (script idx).status], nextIdx := idx + 1 }
  else if (script idx).status = 429 then
    if hrc : 0 < rc then
      match request script refreshOk maxRetries (rc - 1) (idx + 1) with
      | ⟨PyResult.ret v, evs, ni⟩ =>
        { result := PyResult.ret v,
          events := Ev.attempt (script idx).status ::
            Ev.sleep ((script idx).retryAfter.getD 60 : Nat) :: evs,
          nextIdx := ni }
      | ⟨PyResult.exn e, evs, ni⟩ =>
        if e.isAuthOrValidation then
          { result := PyResult.exn (PyExc.networkError e.toStr),
            events := Ev.attempt (script idx).status ::
              Ev.sleep ((script idx).retryAfter.getD 60 : Nat) :: evs,
            nextIdx := ni }
        else
          match request script refreshOk maxRetries (rc - 1) ni with
          | ⟨res2, evs2, ni2⟩ =>
            { result := res2,
              events := Ev.attempt (script idx).status ::
                Ev.sleep ((script idx).retryAfter.getD 60 : Nat) ::
                (evs ++ Ev.sleep 1 :: evs2),
              nextIdx := ni2 }
    else
      { result := PyResult.exn (PyExc.networkError "Rate limit exceeded"),
        events := [Ev.attempt (script idx).status], nextIdx := idx + 1 }
  else if 400 ≤ (script idx).status ∧ (script idx).status < 500 then
    if hrc : 0 < rc then
      match request script refreshOk maxRetries (rc - 1) (idx + 1) with
      | ⟨res, evs, ni⟩ =>
        { result := res,
          events := Ev.attempt (script idx).status :: Ev.sleep 1 :: evs,
          nextIdx := ni }
    else
      { result := PyResult.exn (PyExc.networkError (script idx).msg),
        events := [Ev.attempt (script idx).status], nextIdx := idx + 1 }
  else if 500 ≤ (script idx).status ∧ (script idx).status < 600 then
    if hrc : 0 < rc then
      match request script refreshOk maxRetries (rc - 1) (idx + 1) with
      | ⟨PyResult.ret v, evs, ni⟩ =>
        { result := PyResult.ret v,
          events := Ev.attempt (script idx).status ::
            Ev.sleep (((maxRetries : Int) - rc + 1) * 2) :: evs,
          nextIdx := ni }
      | ⟨PyResult.exn e, evs, ni⟩ =>
        if e.isAuthOrValidation then
          { result := PyResult.exn (PyExc.networkError e.toStr),
            events := Ev.attempt (script idx).status ::
              Ev.sleep (((maxRetries : Int) - rc + 1) * 2) :: evs,
            nextIdx := ni }
        else
          match request script refreshOk maxRetries (rc - 1) ni with
          | ⟨res2, evs2, ni2⟩ =>
            { result := res2,
              events := Ev.attempt (script idx).status ::
                Ev.sleep (((maxRetries : Int) - rc + 1) * 2) ::
                (evs ++ Ev.sleep 1 :: evs2),
              nextIdx := ni2 }
    else
      { result := PyResult.exn
          (PyExc.networkError ("Server error: " ++ toString (script idx).status)),
        events := [Ev.attempt (script idx).status], nextIdx := idx + 1 }
  else
    { result := PyResult.ret none, events := [Ev.attempt (script idx).status],
      nextIdx := idx + 1 }
termination_by (rc + 1).toNat
decreasing_by all_goals omega

/-- Number of HTTP attempts recorded in a trace. -/
def attemptsOf (evs : List Ev) : Nat :=
  evs.countP (fun e => match e with | Ev.attempt _ => true | _ => false)

/-- Number of token refreshes recorded in a trace. -/
def refreshesOf (evs : List Ev) : Nat :=
  evs.countP (fun e => match e with | Ev.refresh => true | _ => false)

/-! ### Self-throttle (`Cafe24Client._handle_rate_limit`) -/

/-- The client's throttle state: `_rate_limit_reset` (window start, `none`
until the first request) and `_requests_this_minute`. -/
structure RLState where
  rateLimitReset : Option Int
  requestsThisMinute : Nat
deriving Repr, DecidableEq

/-- Second half of `Cafe24Client._handle_rate_limit`, after the
reset-every-minute check produced window `ws` and counter `count`: when the
counter has reached 95 (ceiling 100 minus a buffer of 5), sleep out the
remainder of the window, restart the window at the post-sleep wall time and
reset the counter to 0; finally count this request (`+ 1`). -/
def throttleProceed (now : Int) (ws : Option Int) (count : Nat) :
    RLState × List Ev × Int :=
  if 95 ≤ count then
    let waitTime := 60 - (now - ws.getD 0)
    if 0 < waitTime then
      ({ rateLimitReset := some (now + waitTime), requestsThisMinute := 0 + 1 },
       [Ev.sleep waitTime], now + waitTime)
    else
      ({ rateLimitReset := ws, requestsThisMinute := count + 1 }, [], now)
  else
    ({ rateLimitReset := ws, requestsThisMinute := count + 1 }, [], now)

/-- `Cafe24Client._handle_rate_limit` at wall time `now`: reset the window
when unset or at least 60 seconds old, then proceed via `throttleProceed`.
Returns the new state, the sleeps performed, and the wall time at which the
request proceeds. -/
def handleRateLimit (now : Int) (st : RLState) : RLState × List Ev × Int :=
  if st.rateLimitReset.isNone ∨ 60 ≤ now - st.rateLimitReset.getD 0 then
    throttleProceed now (some now) 0
  else
    throttleProceed now st.rateLimitReset st.requestsThisMinute

/-- Does a frame outcome consist of an escaping `AuthenticationError`? -/
def PyResult.isAuthenticationError : PyResult → Bool
  | PyResult.exn (PyExc.authenticationError _) => true
  | _ => false

/-- Does a frame outcome consist of an escaping `APIError`? -/
def PyResult.isAPIError : PyResult → Bool
  | PyResult.exn (PyExc.apiError _ _ _) => true
  | _ => false

/-- Does a frame outcome consist of an escaping `RateLimitError`? -/
def PyResult.isRateLimitError : PyResult → Bool
  | PyResult.exn (PyExc.rateLimitError _) => true
  | _ => false

/-- Is an auth-layer outcome an escaping `TokenExpiredError`? -/
def refreshResultIsTokenExpired : Except AuthErr String → Bool
  | Except.error (AuthErr.tokenExpired _) => true
  | _ => false

/-! ### Shared lemmas about the backing stores -/

theorem lookup_storeSet (k : String) (v : TokenData)
    (l : List (String × TokenData)) : lookupStore (storeSet k v l) k = some v := by
  simp [lookupStore, storeSet, List.lookup]

theorem lookup_storeDel (k : String) (l : List (String × TokenData)) :
    lookupStore (storeDel k l) k = none := by
  unfold storeDel lookupStore
  simp
  intro a b _ hk hka
  exact hk hka.symm

theorem tmGet_save (key : Nat) (now : Int) (tokenType : String) (token : String)
    (expiresIn : Int) (st : TMState) :
    tmGet (save_token key now tokenType token expiresIn st).2 tokenType =
      some { token := encrypt key token, expiresAt := now + expiresIn,
             createdAt := now, type := tokenType } := by
  unfold save_token tmGet
  cases st.redis with
  | none => simp [lookup_storeSet]
  | some r => simp [lookup_storeSet]

theorem tmGet_delete (tokenType : String) (st : TMState) :
    tmGet (delete_token tokenType st).2 tokenType = none := by
  unfold delete_token tmGet
  cases st.redis with
  | none => simp [lookup_storeDel]
  | some r => simp [lookup_storeDel]

theorem roundtrip (key : Nat) (s : String) : decrypt key (encrypt key s) = s := by
  unfold decrypt encrypt
  rw [List.map_map]
  have h : ∀ c ∈ s.data, ((fun n => Char.ofNat (n - key)) ∘
      (fun c : Char => c.toNat + key)) c = id c := by
    intro c _
    simp [Nat.add_sub_cancel, Char.ofNat_toNat]
  rw [List.map_congr_left h, List.map_id]

/-! ### Claim C6 -/

/-- C6: for every string S and every key K, decrypting the encryption of S
under K with the same key K yields S exactly; and for every token persisted
by `save_token`, the stored `token` field is the cipher's ciphertext of the
secret, and a subsequent `get_token` with the same key (at any time not past
the expiry) returns the original secret. -/
theorem token_encryption_roundtrip :
    (∀ (key : Nat) (s : String), decrypt key (encrypt key s) = s) ∧
    (∀ (key : Nat) (now : Int) (tokenType token : String) (expiresIn : Int)
       (st : TMState) (nowGet : Int),
      lookupStore (save_token key now tokenType token expiresIn st).2.file
          tokenType =
        some { token := encrypt key token, expiresAt := now + expiresIn,
               createdAt := now, type := tokenType } ∧
      (nowGet ≤ now + expiresIn →
        (get_token key nowGet tokenType
            (save_token key now tokenType token expiresIn st).2).1 =
          some token)) := by
  refine ⟨roundtrip, ?_⟩
  intro key now tokenType token expiresIn st nowGet
  constructor
  · unfold save_token
    simpa using lookup_storeSet tokenType _ st.file
  · intro hle
    unfold get_token
    rw [tmGet_save]
    have hne : ¬ (now + expiresIn < nowGet) := by omega
    simp [hne, roundtrip]

/-- Witness for C6 at a concrete secret, key and store. -/
theorem token_encryption_roundtrip_witness :
    decrypt 7 (encrypt 7 "secret-tok") = "secret-tok" ∧
    (get_token 7 100 "access"
        (save_token 7 0 "access" "secret-tok" 7200 ⟨none, []⟩).2).1 =
      some "secret-tok" := by
  refine ⟨token_encryption_roundtrip.1 7 "secret-tok", ?_⟩
  exact (token_encryption_roundtrip.2 7 0 "access" "secret-tok" 7200
    ⟨none, []⟩ 100).2 (by decide)

theorem get_token_of_expired (key : Nat) (now : Int) (tokenType : String)
    (st : TMState) (d : TokenData) (hget : tmGet st tokenType = some d)
    (hexp : d.expiresAt < now) :
    get_token key now tokenType st =
      (none, { redis := st.redis.map (storeDel tokenType),
               file := storeDel tokenType st.file }) := by
  unfold get_token
  rw [hget]
  simp [hexp, delete_token]

theorem get_token_of_live (key : Nat) (now : Int) (tokenType : String)
    (st : TMState) (d : TokenData) (hget : tmGet st tokenType = some d)
    (hexp : ¬ d.expiresAt < now) :
    get_token key now tokenType st = (some (decrypt key d.token), st) := by
  unfold get_token
  rw [hget]
  simp [hexp]

/-! ### Claim C7 -/

/-- C7: a `get_token` lookup that finds a record whose `expires_at` has
passed deletes the record from both backing stores and returns `none`; a
lookup finding a record whose `expires_at` has not passed leaves the state
unchanged and returns the decrypted secret. -/
theorem lazy_expiry_on_get :
    (∀ (key : Nat) (now : Int) (tokenType : String) (st : TMState)
       (d : TokenData),
      tmGet st tokenType = some d → d.expiresAt < now →
        get_token key now tokenType st =
          (none, { redis := st.redis.map (storeDel tokenType),
                   file := storeDel tokenType st.file }) ∧
        tmGet { redis := st.redis.map (storeDel tokenType),
                file := storeDel tokenType st.file } tokenType = none) ∧
    (∀ (key : Nat) (now : Int) (tokenType : String) (st : TMState)
       (d : TokenData),
      tmGet st tokenType = some d → ¬ d.expiresAt < now →
        get_token key now tokenType st = (some (decrypt key d.token), st)) := by
  constructor
  · intro key now tokenType st d hget hexp
    refine ⟨get_token_of_expired key now tokenType st d hget hexp, ?_⟩
    have h := tmGet_delete tokenType st
    unfold delete_token at h
    simpa using h
  · intro key now tokenType st d hget hexp
    exact get_token_of_live key now tokenType st d hget hexp

/-- Witness for C7: an expired record is deleted and `none` returned; a
live record is returned decrypted with the state untouched. -/
theorem lazy_expiry_on_get_witness :
    get_token 3 50 "access"
        ⟨none, [("access", ⟨encrypt 3 "tok", 10, 0, "access"⟩)]⟩ =
      (none, { redis := none,
               file := storeDel "access"
                 [("access", ⟨encrypt 3 "tok", 10, 0, "access"⟩)] }) ∧
    get_token 3 5 "access"
        ⟨none, [("access", ⟨encrypt 3 "tok", 10, 0, "access"⟩)]⟩ =
      (some (decrypt 3 (encrypt 3 "tok")),
       ⟨none, [("access", ⟨encrypt 3 "tok", 10, 0, "access"⟩)]⟩) := by
  constructor
  · exact (lazy_expiry_on_get.1 3 50 "access"
      ⟨none, [("access", ⟨encrypt 3 "tok", 10, 0, "access"⟩)]⟩
      ⟨encrypt 3 "tok", 10, 0, "access"⟩ (by decide) (by decide)).1
  · exact lazy_expiry_on_get.2 3 5 "access"
      ⟨none, [("access", ⟨encrypt 3 "tok", 10, 0, "access"⟩)]⟩
      ⟨encrypt 3 "tok", 10, 0, "access"⟩ (by decide) (by decide)

/-! ### Claim C5 -/

/-- C5: the self-throttle state satisfies: (i) with 95 requests already
counted inside the current 60-second window, the next (96th) request sleeps
out the remainder of the window, resets the counter to 0 and then counts
itself (post-state counter 1, window restarted at the old start plus 60);
(ii) the counter never exceeds 95 = ceiling 100 minus buffer 5 (it is an
inductive invariant), so it never exceeds the ceiling before a proactive
sleep; (iii) within an open window the counter just increments and the
window start is untouched (no per-request reset); (iv) once 60 seconds of
wall time have elapsed the window is reset and the counter restarts. -/
theorem self_throttle_window_properties :
    (∀ (ws now : Int), 0 ≤ now - ws → now - ws < 60 →
      handleRateLimit now { rateLimitReset := some ws, requestsThisMinute := 95 } =
        ({ rateLimitReset := some (ws + 60), requestsThisMinute := 1 },
         [Ev.sleep (60 - (now - ws))], ws + 60)) ∧
    (∀ (now : Int) (st : RLState), st.requestsThisMinute ≤ 95 →
      (handleRateLimit now st).1.requestsThisMinute ≤ 95) ∧
    (∀ (ws now : Int) (c : Nat), c < 95 → 0 ≤ now - ws → now - ws < 60 →
      handleRateLimit now { rateLimitReset := some ws, requestsThisMinute := c } =
        ({ rateLimitReset := some ws, requestsThisMinute := c + 1 }, [], now)) ∧
    (∀ (ws now : Int) (c : Nat), 60 ≤ now - ws →
      handleRateLimit now { rateLimitReset := some ws, requestsThisMinute := c } =
        ({ rateLimitReset := some now, requestsThisMinute := 1 }, [], now)) := by
  refine ⟨?_, ?_, ?_, ?_⟩
  · intro ws now h0 h60
    have e1 : now + (60 - (now - ws)) = ws + 60 := by ring
    unfold handleRateLimit
    rw [if_neg (by simp; omega)]
    unfold throttleProceed
    rw [if_pos (by simp)]
    simp only [Option.getD_some]
    rw [if_pos (by omega)]
    rw [e1]
  · intro now st hle
    rcases st with ⟨ws, c⟩
    dsimp only at hle
    unfold handleRateLimit
    dsimp only
    split_ifs with h1
    · unfold throttleProceed
      rw [if_neg (by omega)]
      simp
    · unfold throttleProceed
      dsimp only
      split_ifs with h2 h3
      · simp
      · exfalso
        rcases ws with _ | w
        · simp at h1
        · simp at h1 h3
          omega
      · dsimp only
        omega
  · intro ws now c hc h0 h60
    unfold handleRateLimit
    rw [if_neg (by simp; omega)]
    unfold throttleProceed
    rw [if_neg (by simp; omega)]
  · intro ws now c h60
    unfold handleRateLimit
    rw [if_pos (by simp; omega)]
    unfold throttleProceed
    rw [if_neg (by omega)]

/-- Witness for C5: at window start 0 the 96th request at time 30 sleeps the
remaining 30 seconds and restarts the window; counts stay below the
ceiling; time 30 with counter 40 just counts; time 70 resets the window. -/
theorem self_throttle_window_properties_witness :
    handleRateLimit 30 { rateLimitReset := some 0, requestsThisMinute := 95 } =
      ({ rateLimitReset := some 60, requestsThisMinute := 1 }, [Ev.sleep 30], 60) ∧
    (handleRateLimit 30 { rateLimitReset := some 0, requestsThisMinute := 40 }).1.requestsThisMinute ≤ 95 ∧
    handleRateLimit 30 { rateLimitReset := some 0, requestsThisMinute := 40 } =
      ({ rateLimitReset := some 0, requestsThisMinute := 41 }, [], 30) ∧
    handleRateLimit 70 { rateLimitReset := some 0, requestsThisMinute := 40 } =
      ({ rateLimitReset := some 70, requestsThisMinute := 1 }, [], 70) := by
  refine ⟨?_, ?_, ?_, ?_⟩
  · have h := self_throttle_window_properties.1 0 30 (by omega) (by omega)
    simpa using h
  · exact self_throttle_window_properties.2.1 30
      { rateLimitReset := some 0, requestsThisMinute := 40 } (by decide)
  · have h := self_throttle_window_properties.2.2.1 0 30 40 (by omega) (by omega)
      (by omega)
    simpa using h
  · have h := self_throttle_window_properties.2.2.2 0 70 40 (by omega)
    simpa using h

/-! ### Claim C9 — counterexample and amended behaviour -/

/-- C9 fails as stated: a non-HTTP-status failure of the upstream refresh
call (for example a network timeout) is an upstream failure of the refresh
call, yet `refresh_access_token` raises `AuthenticationError` — not
`TokenExpiredError` — and does not clear the stored tokens (the refresh
token is still present afterwards). -/
theorem refresh_upstream_exn_cex :
    refresh_access_token 0 10 (RefreshUpstream.exn "timeout")
        ⟨none, [("refresh", ⟨encrypt 0 "ref", 1000, 0, "refresh"⟩)]⟩ =
      (Except.error (AuthErr.authError "Token refresh failed: timeout"),
       ⟨none, [("refresh", ⟨encrypt 0 "ref", 1000, 0, "refresh"⟩)]⟩) ∧
    refreshResultIsTokenExpired
      (refresh_access_token 0 10 (RefreshUpstream.exn "timeout")
        ⟨none, [("refresh", ⟨encrypt 0 "ref", 1000, 0, "refresh"⟩)]⟩).1 = false ∧
    lookupStore
      (refresh_access_token 0 10 (RefreshUpstream.exn "timeout")
        ⟨none, [("refresh", ⟨encrypt 0 "ref", 1000, 0, "refresh"⟩)]⟩).2.file
      "refresh" = some ⟨encrypt 0 "ref", 1000, 0, "refresh"⟩ := by
  refine ⟨rfl, rfl, rfl⟩

/-- C9 amended: `refresh_access_token` fails with `TokenExpiredError` when
no refresh token is stored (state untouched); when the upstream rejects the
refresh request with an HTTP error status it clears all stored tokens and
fails with `TokenExpiredError`; on any other failure of the refresh call it
fails with `AuthenticationError` and does not clear the stored tokens. -/
theorem refresh_failure_behaviour :
    (∀ (key : Nat) (now : Int) (upstream : RefreshUpstream) (st : TMState),
      tmGet st "refresh" = none →
        refresh_access_token key now upstream st =
          (Except.error (AuthErr.tokenExpired
            "No refresh token available. Please re-authenticate."), st)) ∧
    (∀ (key : Nat) (now : Int) (status : Nat) (st : TMState) (d : TokenData),
      tmGet st "refresh" = some d → ¬ d.expiresAt < now →
        refresh_access_token key now (RefreshUpstream.httpStatusError status) st =
          (Except.error (AuthErr.tokenExpired
            "Token refresh failed. Please re-authenticate."),
           { redis := st.redis.map (fun _ => []), file := [] })) ∧
    (∀ (key : Nat) (now : Int) (m : String) (st : TMState) (d : TokenData),
      tmGet st "refresh" = some d → ¬ d.expiresAt < now →
        refresh_access_token key now (RefreshUpstream.exn m) st =
          (Except.error (AuthErr.authError ("Token refresh failed: " ++ m)), st)) := by
  refine ⟨?_, ?_, ?_⟩
  · intro key now upstream st hget
    have hg : get_token key now "refresh" st = (none, st) := by
      unfold get_token
      rw [hget]
    unfold refresh_access_token
    rw [hg]
  · intro key now status st d hget hexp
    have hg : get_token key now "refresh" st = (some (decrypt key d.token), st) :=
      get_token_of_live key now "refresh" st d hget hexp
    unfold refresh_access_token
    rw [hg]
    rfl
  · intro key now m st d hget hexp
    have hg : get_token key now "refresh" st = (some (decrypt key d.token), st) :=
      get_token_of_live key now "refresh" st d hget hexp
    unfold refresh_access_token
    rw [hg]

/-- Witness for C9 amended at concrete stores. -/
theorem refresh_failure_behaviour_witness :
    refresh_access_token 0 10 (RefreshUpstream.httpStatusError 400) ⟨none, []⟩ =
      (Except.error (AuthErr.tokenExpired
        "No refresh token available. Please re-authenticate."), ⟨none, []⟩) ∧
    refresh_access_token 0 10 (RefreshUpstream.httpStatusError 400)
        ⟨none, [("refresh", ⟨encrypt 0 "ref", 1000, 0, "refresh"⟩)]⟩ =
      (Except.error (AuthErr.tokenExpired
        "Token refresh failed. Please re-authenticate."),
       { redis := (none : Option (List (String × TokenData))).map (fun _ => []),
         file := [] }) := by
  constructor
  · exact refresh_failure_behaviour.1 0 10 (RefreshUpstream.httpStatusError 400)
      ⟨none, []⟩ (by decide)
  · exact refresh_failure_behaviour.2.1 0 10 400
      ⟨none, [("refresh", ⟨encrypt 0 "ref", 1000, 0, "refresh"⟩)]⟩
      ⟨encrypt 0 "ref", 1000, 0, "refresh"⟩ (by decide) (by decide)

/-! ### Claim C8 — counterexample and amended behaviour -/

/-- C8 fails as stated: a stored access token whose remaining lifetime is
−100 seconds (which is "at most 300 seconds") does not trigger the refresh
operation.  `get_token`'s lazy expiry deletes it first, so `get_valid_token`
fails with `AuthenticationError` and the refresh flag stays `false`. -/
theorem expired_access_token_no_refresh_cex :
    get_valid_token 1 200 (RefreshUpstream.exn "net")
        ⟨none, [("access", ⟨encrypt 1 "tok", 100, 0, "access"⟩)]⟩ =
      (Except.error (AuthErr.authError
        "No valid access token. Please authenticate using the authorization URL."),
       ⟨none, []⟩, false) := by
  rfl

/-- C8 amended: with a consistent store (no fast cache) holding an access
record that has not yet expired, `get_valid_token` returns the decrypted
token without invoking refresh whenever the remaining lifetime exceeds 300
seconds, and invokes the refresh operation whenever the remaining lifetime
is at most 300 seconds; with no access record at all it fails with
`AuthenticationError` without refreshing.  An already-expired stored record
is lazily deleted and also ends in `AuthenticationError`, not refresh. -/
theorem get_valid_token_margin_behaviour :
    (∀ (key : Nat) (now : Int) (upstream : RefreshUpstream) (st : TMState)
       (d : TokenData),
      st.redis = none → lookupStore st.file "access" = some d →
      ¬ d.expiresAt < now → 300 < d.expiresAt - now →
        get_valid_token key now upstream st =
          (Except.ok (decrypt key d.token), st, false)) ∧
    (∀ (key : Nat) (now : Int) (upstream : RefreshUpstream) (st : TMState)
       (d : TokenData),
      st.redis = none → lookupStore st.file "access" = some d →
      ¬ d.expiresAt < now → d.expiresAt - now ≤ 300 →
        (get_valid_token key now upstream st).2.2 = true) ∧
    (∀ (key : Nat) (now : Int) (upstream : RefreshUpstream) (st : TMState),
      tmGet st "access" = none →
        get_valid_token key now upstream st =
          (Except.error (AuthErr.authError
            "No valid access token. Please authenticate using the authorization URL."),
           st, false)) := by
  refine ⟨?_, ?_, ?_⟩
  · intro key now upstream st d hredis hfile hlive h300
    have hget : get_token key now "access" st = (some (decrypt key d.token), st) :=
      get_token_of_live key now "access" st d (by unfold tmGet; rw [hredis, hfile])
        hlive
    have hinfo : get_token_info now "access" st =
        some { isExpired := decide (d.expiresAt < now),
               expiresInSeconds := d.expiresAt - now } := by
      unfold get_token_info
      rw [hredis, hfile]
    unfold get_valid_token
    simp only [hget, hinfo]
    rw [if_pos (by simpa using h300)]
  · intro key now upstream st d hredis hfile hlive h300
    have hget : get_token key now "access" st = (some (decrypt key d.token), st) :=
      get_token_of_live key now "access" st d (by unfold tmGet; rw [hredis, hfile])
        hlive
    have hinfo : get_token_info now "access" st =
        some { isExpired := decide (d.expiresAt < now),
               expiresInSeconds := d.expiresAt - now } := by
      unfold get_token_info
      rw [hredis, hfile]
    unfold get_valid_token
    simp only [hget, hinfo]
    rw [if_neg (by simpa using h300)]
  · intro key now upstream st hget
    have hg : get_token key now "access" st = (none, st) := by
      unfold get_token
      rw [hget]
    unfold get_valid_token
    simp only [hg]

/-- Witness for C8 amended at a concrete store: remaining lifetime 1000
returns the cached token with no refresh; remaining lifetime 200 triggers
the refresh; an empty store fails with `AuthenticationError`. -/
theorem get_valid_token_margin_behaviour_witness :
    get_valid_token 1 0 (RefreshUpstream.exn "net")
        ⟨none, [("access", ⟨encrypt 1 "tok", 1000, 0, "access"⟩)]⟩ =
      (Except.ok (decrypt 1 (encrypt 1 "tok")),
       ⟨none, [("access", ⟨encrypt 1 "tok", 1000, 0, "access"⟩)]⟩, false) ∧
    (get_valid_token 1 0 (RefreshUpstream.exn "net")
        ⟨none, [("access", ⟨encrypt 1 "tok", 200, 0, "access"⟩)]⟩).2.2 = true ∧
    get_valid_token 1 0 (RefreshUpstream.exn "net") ⟨none, []⟩ =
      (Except.error (AuthErr.authError
        "No valid access token. Please authenticate using the authorization URL."),
       ⟨none, []⟩, false) := by
  refine ⟨?_, ?_, ?_⟩
  · exact get_valid_token_margin_behaviour.1 1 0 (RefreshUpstream.exn "net")
      ⟨none, [("access", ⟨encrypt 1 "tok", 1000, 0, "access"⟩)]⟩
      ⟨encrypt 1 "tok", 1000, 0, "access"⟩ rfl (by decide) (by decide) (by decide)
  · exact get_valid_token_margin_behaviour.2.1 1 0 (RefreshUpstream.exn "net")
      ⟨none, [("access", ⟨encrypt 1 "tok", 200, 0, "access"⟩)]⟩
      ⟨encrypt 1 "tok", 200, 0, "access"⟩ rfl (by decide) (by decide) (by decide)
  · exact get_valid_token_margin_behaviour.2.2 1 0 (RefreshUpstream.exn "net")
      ⟨none, []⟩ (by decide)

/-! ### Counting lemmas for event traces -/

@[simp] theorem attemptsOf_nil : attemptsOf [] = 0 := rfl

@[simp] theorem attemptsOf_cons_attempt (s : Nat) (t : List Ev) :
    attemptsOf (Ev.attempt s :: t) = attemptsOf t + 1 := by
  simp [attemptsOf]

@[simp] theorem attemptsOf_cons_sleep (x : Int) (t : List Ev) :
    attemptsOf (Ev.sleep x :: t) = attemptsOf t := by
  simp [attemptsOf]

@[simp] theorem attemptsOf_cons_refresh (t : List Ev) :
    attemptsOf (Ev.refresh :: t) = attemptsOf t := by
  simp [attemptsOf]

@[simp] theorem attemptsOf_append (l1 l2 : List Ev) :
    attemptsOf (l1 ++ l2) = attemptsOf l1 + attemptsOf l2 := by
  simp [attemptsOf, List.countP_append]

@[simp] theorem refreshesOf_nil : refreshesOf [] = 0 := rfl

@[simp] theorem refreshesOf_cons_attempt (s : Nat) (t : List Ev) :
    refreshesOf (Ev.attempt s :: t) = refreshesOf t := by
  simp [refreshesOf]

@[simp] theorem refreshesOf_cons_sleep (x : Int) (t : List Ev) :
    refreshesOf (Ev.sleep x :: t) = refreshesOf t := by
  simp [refreshesOf]

@[simp] theorem refreshesOf_cons_refresh (t : List Ev) :
    refreshesOf (Ev.refresh :: t) = refreshesOf t + 1 := by
  simp [refreshesOf]

@[simp] theorem refreshesOf_append (l1 l2 : List Ev) :
    refreshesOf (l1 ++ l2) = refreshesOf l1 + refreshesOf l2 := by
  simp [refreshesOf, List.countP_append]

/-! ### Claim C10 -/

/-- C10: a response status outside the classified set
{200, 201, 204, 401, 429} ∪ [400, 600) — for example 202 or a 3xx that
survives redirect following — falls through the status-classification chain
of `request`, which then returns Python `None` (`PyResult.ret none`):
neither a data envelope nor any typed error is produced. -/
theorem unclassified_status_returns_none (script : Nat → Resp)
    (refreshOk : Bool) (maxRetries : Nat) (rc : Int) (idx : Nat)
    (h200 : (script idx).status ≠ 200) (h201 : (script idx).status ≠ 201)
    (h204 : (script idx).status ≠ 204) (h401 : (script idx).status ≠ 401)
    (h429 : (script idx).status ≠ 429)
    (hcl : ¬ (400 ≤ (script idx).status ∧ (script idx).status < 600)) :
    request script refreshOk maxRetries rc idx =
      { result := PyResult.ret none,
        events := [Ev.attempt (script idx).status], nextIdx := idx + 1 } := by
  rw [request]
  rw [if_neg (by omega), if_neg h204, if_neg h401, if_neg h429,
    if_neg (by omega), if_neg (by omega)]

/-- Witness for C10 at status 202 and status 302. -/
theorem unclassified_status_returns_none_witness :
    request (fun _ => ⟨202, none, "Accepted"⟩) true 3 3 0 =
      { result := PyResult.ret none, events := [Ev.attempt 202], nextIdx := 1 } ∧
    request (fun _ => ⟨302, none, "Found"⟩) true 3 3 0 =
      { result := PyResult.ret none, events := [Ev.attempt 302], nextIdx := 1 } := by
  constructor
  · exact unclassified_status_returns_none (fun _ => ⟨202, none, "Accepted"⟩)
      true 3 3 0 (by decide) (by decide) (by decide) (by decide) (by decide)
      (by decide)
  · exact unclassified_status_returns_none (fun _ => ⟨302, none, "Found"⟩)
      true 3 3 0 (by decide) (by decide) (by decide) (by decide) (by decide)
      (by decide)

/-! ### Claim C1 -/

/-- C1 describes the intended behaviour, but the code disagrees: the
`APIError` raised by the 4xx branch is caught by `request`'s own
`except Exception` handler, which *does* retry the client error (flat
1-second sleep, budget−1) and, once the budget is exhausted, re-raises
`NetworkError(str(e))`, losing the status code and the parsed error body.
Here: every response is HTTP 404 and the retry budget is 1; the call makes
a second HTTP attempt and ends in `NetworkError "Not Found"` — no
`APIError` escapes. -/
theorem client_error_retried_and_wrapped :
    request (fun _ => ⟨404, none, "Not Found"⟩) true 1 1 0 =
      { result := PyResult.exn (PyExc.networkError "Not Found"),
        events := [Ev.attempt 404, Ev.sleep 1, Ev.attempt 404], nextIdx := 2 } ∧
    attemptsOf (request (fun _ => ⟨404, none, "Not Found"⟩) true 1 1 0).events = 2 ∧
    (request (fun _ => ⟨404, none, "Not Found"⟩) true 1 1 0).result.isAPIError =
      false := by
  have h : request (fun _ => ⟨404, none, "Not Found"⟩) true 1 1 0 =
      { result := PyResult.exn (PyExc.networkError "Not Found"),
        events := [Ev.attempt 404, Ev.sleep 1, Ev.attempt 404], nextIdx := 2 } := by
    simp [request, PyExc.isAuthOrValidation, PyExc.toStr]
  refine ⟨h, ?_, ?_⟩
  · rw [h]
    simp
  · rw [h]
    rfl

/-! ### Claim C3 -/

/-- C3 describes the intended behaviour, but the code disagrees: the
final `APIError` of an exhausted 5xx retry chain is caught by the generic
handler of every enclosing frame, each of which retries *again* after a
flat 1-second sleep.  With budget N = 2 and every response HTTP 500 the
call makes 2^(N+1) − 1 = 7 HTTP attempts (not N+1 = 3), interleaves flat
1-second sleeps with the 2s/4s backoff waits, and ends in
`NetworkError "Server error: 500"` rather than an `APIError`. -/
theorem server_error_retry_blowup :
    request (fun _ => ⟨500, none, "err"⟩) true 2 2 0 =
      { result := PyResult.exn (PyExc.networkError "Server error: 500"),
        events := [Ev.attempt 500, Ev.sleep 2, Ev.attempt 500, Ev.sleep 4,
          Ev.attempt 500, Ev.sleep 1, Ev.attempt 500, Ev.sleep 1,
          Ev.attempt 500, Ev.sleep 4, Ev.attempt 500, Ev.sleep 1,
          Ev.attempt 500],
        nextIdx := 7 } ∧
    attemptsOf (request (fun _ => ⟨500, none, "err"⟩) true 2 2 0).events = 7 ∧
    (request (fun _ => ⟨500, none, "err"⟩) true 2 2 0).result.isAPIError =
      false := by
  have h : request (fun _ => ⟨500, none, "err"⟩) true 2 2 0 =
      { result := PyResult.exn (PyExc.networkError "Server error: 500"),
        events := [Ev.attempt 500, Ev.sleep 2, Ev.attempt 500, Ev.sleep 4,
          Ev.attempt 500, Ev.sleep 1, Ev.attempt 500, Ev.sleep 1,
          Ev.attempt 500, Ev.sleep 4, Ev.attempt 500, Ev.sleep 1,
          Ev.attempt 500],
        nextIdx := 7 } := by
    set_option maxRecDepth 4000 in
    simp [request, PyExc.isAuthOrValidation, PyExc.toStr]
    rfl
  refine ⟨h, ?_, ?_⟩
  · rw [h]
    simp
  · rw [h]
    rfl

/-! ### Claim C2 — helper: frames below the initial budget never refresh -/

set_option maxHeartbeats 1600000 in
theorem refreshesOf_request_zero (script : Nat → Resp) (refreshOk : Bool)
    (maxRetries : Nat) :
    ∀ (n : Nat) (rc : Int), (rc + 1).toNat ≤ n → rc < (maxRetries : Int) →
      ∀ (idx : Nat),
        refreshesOf (request script refreshOk maxRetries rc idx).events = 0 := by
  intro n
  induction n with
  | zero =>
    intro rc hn hlt idx
    rw [request]
    split_ifs <;> first | (exfalso; omega) | (simp; done)
  | succ n ih =>
    intro rc hn hlt idx
    rw [request]
    split_ifs <;> try (first | (exfalso; omega) | (simp; done))
    all_goals
      rcases hs : request script refreshOk maxRetries (rc - 1) (idx + 1) with
        ⟨res, evs, ni⟩
    all_goals
      have h0 : refreshesOf evs = 0 := by
        have hz := ih (rc - 1) (by omega) (by omega) (idx + 1)
        rw [hs] at hz
        simpa using hz
    all_goals rcases res with v | e
    all_goals try (simp [h0]; done)
    all_goals by_cases hb : e.isAuthOrValidation = true
    all_goals try (simp [hb, h0]; done)
    all_goals
      rcases hs2 : request script refreshOk maxRetries (rc - 1) ni with
        ⟨res2, evs2, ni2⟩
    all_goals
      have h02 : refreshesOf evs2 = 0 := by
        have hz := ih (rc - 1) (by omega) (by omega) ni
        rw [hs2] at hz
        simpa using hz
    all_goals simp [hs2, hb, h0, h02]

/-! ### Claim C2 — counterexample and amended behaviour -/

/-- C2 fails as stated only in the class of the final failure: with 401 on
both attempts the second 401 raises `AuthenticationError` internally, but
the catch-all handler converts it (via the 401 branch's inner handler) into
`NetworkError`, so the outer call does not fail with an
`AuthenticationError`.  The refresh is still invoked exactly once. -/
theorem second_401_wrapped_as_network_error_cex :
    request (fun _ => ⟨401, none, "unauth"⟩) true 1 1 0 =
      { result := PyResult.exn
          (PyExc.networkError "Authentication failed: Invalid or expired token"),
        events := [Ev.attempt 401, Ev.refresh, Ev.attempt 401], nextIdx := 2 } ∧
    (request (fun _ => ⟨401, none, "unauth"⟩) true 1 1 0).result.isAuthenticationError =
      false := by
  have h : request (fun _ => ⟨401, none, "unauth"⟩) true 1 1 0 =
      { result := PyResult.exn
          (PyExc.networkError "Authentication failed: Invalid or expired token"),
        events := [Ev.attempt 401, Ev.refresh, Ev.attempt 401], nextIdx := 2 } := by
    simp [request, PyExc.isAuthOrValidation, PyExc.toStr]
  refine ⟨h, ?_⟩
  rw [h]
  rfl

set_option maxHeartbeats 1600000 in
/-- C2 amended: for every outer call (budget at its initial value
`maxRetries`) the refresh operation is invoked at most once due to 401; a
401 on the first attempt triggers exactly one refresh followed by one retry
with budget decremented, and a 401 on the retry triggers no further refresh
and no further attempt — the call then fails with
`NetworkError "Authentication failed: Invalid or expired token"` (the
internally raised `AuthenticationError` is converted by the catch-all
handler), rather than with an `AuthenticationError`. -/
theorem single_refresh_on_401 :
    (∀ (script : Nat → Resp) (refreshOk : Bool) (maxRetries : Nat) (idx : Nat),
      refreshesOf
        (request script refreshOk maxRetries (maxRetries : Int) idx).events ≤ 1) ∧
    (∀ (script : Nat → Resp) (maxRetries : Nat) (idx : Nat),
      (script idx).status = 401 → (script (idx + 1)).status = 401 →
        request script true maxRetries (maxRetries : Int) idx =
          { result := PyResult.exn
              (PyExc.networkError "Authentication failed: Invalid or expired token"),
            events := [Ev.attempt 401, Ev.refresh, Ev.attempt 401],
            nextIdx := idx + 2 } ∧
        refreshesOf
          (request script true maxRetries (maxRetries : Int) idx).events = 1 ∧
        attemptsOf
          (request script true maxRetries (maxRetries : Int) idx).events = 2) := by
  have hzero : ∀ (script : Nat → Resp) (refreshOk : Bool) (maxRetries : Nat)
      (idx2 : Nat),
      refreshesOf
        (request script refreshOk maxRetries ((maxRetries : Int) - 1) idx2).events = 0 := by
    intro script refreshOk maxRetries idx2
    exact refreshesOf_request_zero script refreshOk maxRetries
      (((maxRetries : Int) - 1 + 1).toNat) ((maxRetries : Int) - 1) (by omega)
      (by omega) idx2
  constructor
  · intro script refreshOk maxRetries idx
    rw [request]
    split_ifs <;> try (first | (exfalso; omega) | (simp; done))
    all_goals
      rcases hs : request script refreshOk maxRetries ((maxRetries : Int) - 1)
        (idx + 1) with ⟨res, evs, ni⟩
    all_goals
      have h0 : refreshesOf evs = 0 := by
        have hz := hzero script refreshOk maxRetries (idx + 1)
        rw [hs] at hz
        simpa using hz
    all_goals rcases res with v | e
    all_goals try (simp [h0]; done)
    all_goals by_cases hb : e.isAuthOrValidation = true
    all_goals try (simp [hb, h0]; done)
    all_goals
      rcases hs2 : request script refreshOk maxRetries ((maxRetries : Int) - 1)
        ni with ⟨res2, evs2, ni2⟩
    all_goals
      have h02 : refreshesOf evs2 = 0 := by
        have hz := hzero script refreshOk maxRetries ni
        rw [hs2] at hz
        simpa using hz
    all_goals simp [hs2, hb, h0, h02]
  · intro script maxRetries idx h1 h2
    have hsub : request script true maxRetries ((maxRetries : Int) - 1) (idx + 1) =
        { result := PyResult.exn (PyExc.networkError "Invalid or expired token"),
          events := [Ev.attempt 401], nextIdx := idx + 1 + 1 } := by
      rw [request]
      rw [if_neg (by omega), if_neg (by omega), if_pos h2]
      rw [dif_neg (by omega), h2]
    have hmain : request script true maxRetries (maxRetries : Int) idx =
        { result := PyResult.exn
            (PyExc.networkError "Authentication failed: Invalid or expired token"),
          events := [Ev.attempt 401, Ev.refresh, Ev.attempt 401],
          nextIdx := idx + 2 } := by
      rw [request]
      rw [if_neg (by omega), if_neg (by omega), if_pos h1]
      rw [dif_pos rfl]
      rw [if_pos rfl]
      rw [hsub, h1]
      rfl
    refine ⟨hmain, ?_, ?_⟩ <;> rw [hmain] <;> simp

/-- Witness for C2 amended at a constant-401 script with budget 3. -/
theorem single_refresh_on_401_witness :
    refreshesOf
      (request (fun _ => ⟨401, none, "unauth"⟩) true 3 3 0).events ≤ 1 ∧
    request (fun _ => ⟨401, none, "unauth"⟩) true 3 3 0 =
      { result := PyResult.exn
          (PyExc.networkError "Authentication failed: Invalid or expired token"),
        events := [Ev.attempt 401, Ev.refresh, Ev.attempt 401], nextIdx := 2 } := by
  constructor
  · exact single_refresh_on_401.1 (fun _ => ⟨401, none, "unauth"⟩) true 3 0
  · exact (single_refresh_on_401.2 (fun _ => ⟨401, none, "unauth"⟩) 3 0 rfl rfl).1

/-! ### Claim C4 — counterexample and amended behaviour -/

/-- C4 fails as stated in its exhausted-budget half: the `RateLimitError`
raised when a 429 arrives with budget 0 is caught by `request`'s own
catch-all handler and re-raised as `NetworkError "Rate limit exceeded"`;
no `RateLimitError` escapes the call. -/
theorem rate_limit_exhaustion_wrapped_cex :
    request (fun _ => ⟨429, some 5, "Too Many Requests"⟩) true 0 0 0 =
      { result := PyResult.exn (PyExc.networkError "Rate limit exceeded"),
        events := [Ev.attempt 429], nextIdx := 1 } ∧
    (request (fun _ => ⟨429, some 5, "Too Many Requests"⟩) true 0 0 0).result.isRateLimitError =
      false := by
  have h : request (fun _ => ⟨429, some 5, "Too Many Requests"⟩) true 0 0 0 =
      { result := PyResult.exn (PyExc.networkError "Rate limit exceeded"),
        events := [Ev.attempt 429], nextIdx := 1 } := by
    simp [request]
  refine ⟨h, ?_⟩
  rw [h]
  rfl

/-- C4 amended: a 429 response with positive budget makes the pipeline sleep
exactly the `Retry-After` duration (60 seconds when the header is absent)
and retry with budget decremented by one (a successful retry's envelope is
returned unchanged); a 429 with exhausted budget raises `RateLimitError`
internally, which the catch-all handler wraps, so the call fails with
`NetworkError "Rate limit exceeded"` rather than `RateLimitError`. -/
theorem retry_after_honored :
    (∀ (script : Nat → Resp) (refreshOk : Bool) (maxRetries : Nat) (rc : Int)
       (idx : Nat),
      (script idx).status = 429 → 0 < rc →
        (request script refreshOk maxRetries rc idx).events.take 2 =
          [Ev.attempt 429, Ev.sleep ((script idx).retryAfter.getD 60 : Nat)] ∧
        ∀ (v : Option String),
          (request script refreshOk maxRetries (rc - 1) (idx + 1)).result =
            PyResult.ret v →
          (request script refreshOk maxRetries rc idx).result = PyResult.ret v) ∧
    (∀ (script : Nat → Resp) (refreshOk : Bool) (maxRetries : Nat) (rc : Int)
       (idx : Nat),
      (script idx).status = 429 → rc ≤ 0 →
        request script refreshOk maxRetries rc idx =
          { result := PyResult.exn (PyExc.networkError "Rate limit exceeded"),
            events := [Ev.attempt (script idx).status], nextIdx := idx + 1 }) := by
  constructor
  · intro script refreshOk maxRetries rc idx h429 hrc
    rcases hs : request script refreshOk maxRetries (rc - 1) (idx + 1) with
      ⟨res, evs, ni⟩
    rcases res with v0 | e
    · have hr : request script refreshOk maxRetries rc idx =
          { result := PyResult.ret v0,
            events := Ev.attempt (script idx).status ::
              Ev.sleep ((script idx).retryAfter.getD 60 : Nat) :: evs,
            nextIdx := ni } := by
        rw [request]
        rw [if_neg (by omega), if_neg (by omega), if_neg (by omega),
          if_pos h429, dif_pos hrc, hs]
      constructor
      · rw [hr, h429]
        rfl
      · intro v hv
        obtain rfl : v0 = v := by simpa using hv
        rw [hr]
    · have key : ∀ (P : ReqOut → Prop),
          (e.isAuthOrValidation = true →
            P { result := PyResult.exn (PyExc.networkError e.toStr),
                events := Ev.attempt (script idx).status ::
                  Ev.sleep ((script idx).retryAfter.getD 60 : Nat) :: evs,
                nextIdx := ni }) →
          (¬ e.isAuthOrValidation = true →
            ∀ (res2 : PyResult) (evs2 : List Ev) (ni2 : Nat),
              request script refreshOk maxRetries (rc - 1) ni =
                ⟨res2, evs2, ni2⟩ →
              P { result := res2,
                  events := Ev.attempt (script idx).status ::
                    Ev.sleep ((script idx).retryAfter.getD 60 : Nat) ::
                    (evs ++ Ev.sleep 1 :: evs2),
                  nextIdx := ni2 }) →
          P (request script refreshOk maxRetries rc idx) := by
        intro P hthen helse
        by_cases hb : e.isAuthOrValidation = true
        · have hr : request script refreshOk maxRetries rc idx =
              { result := PyResult.exn (PyExc.networkError e.toStr),
                events := Ev.attempt (script idx).status ::
                  Ev.sleep ((script idx).retryAfter.getD 60 : Nat) :: evs,
                nextIdx := ni } := by
            rw [request]
            rw [if_neg (by omega), if_neg (by omega), if_neg (by omega),
              if_pos h429, dif_pos hrc, hs]
            dsimp only
            rw [if_pos hb]
          rw [hr]
          exact hthen hb
        · rcases hs2 : request script refreshOk maxRetries (rc - 1) ni with
            ⟨res2, evs2, ni2⟩
          have hr : request script refreshOk maxRetries rc idx =
              { result := res2,
                events := Ev.attempt (script idx).status ::
                  Ev.sleep ((script idx).retryAfter.getD 60 : Nat) ::
                  (evs ++ Ev.sleep 1 :: evs2),
                nextIdx := ni2 } := by
            rw [request]
            rw [if_neg (by omega), if_neg (by omega), if_neg (by omega),
              if_pos h429, dif_pos hrc, hs]
            dsimp only
            rw [if_neg hb, hs2]
          rw [hr]
          exact helse hb res2 evs2 ni2 hs2
      constructor
      · refine key (fun out => out.events.take 2 =
          [Ev.attempt 429, Ev.sleep ((script idx).retryAfter.getD 60 : Nat)])
          ?_ ?_
        · intro _
          rw [h429]
          rfl
        · intro _ res2 evs2 ni2 _
          rw [h429]
          rfl
      · intro v hv
        simp at hv
  · intro script refreshOk maxRetries rc idx h429 hrc0
    rw [request]
    rw [if_neg (by omega), if_neg (by omega), if_neg (by omega), if_pos h429,
      dif_neg (by omega)]

/-- Witness for C4 amended: `Retry-After: 5` sleeps exactly 5 seconds before
the retry, whose success is returned; an exhausted budget ends in the
wrapped error. -/
theorem retry_after_honored_witness :
    (request (fun i => if i = 0 then ⟨429, some 5, "rl"⟩ else ⟨200, none, "ok"⟩)
        true 3 1 0).events.take 2 = [Ev.attempt 429, Ev.sleep 5] ∧
    (request (fun i => if i = 0 then ⟨429, some 5, "rl"⟩ else ⟨200, none, "ok"⟩)
        true 3 1 0).result = PyResult.ret (some "ok") ∧
    request (fun _ => ⟨429, none, "rl"⟩) true 3 0 0 =
      { result := PyResult.exn (PyExc.networkError "Rate limit exceeded"),
        events := [Ev.attempt 429], nextIdx := 1 } := by
  refine ⟨?_, ?_, ?_⟩
  · exact (retry_after_honored.1
      (fun i => if i = 0 then ⟨429, some 5, "rl"⟩ else ⟨200, none, "ok"⟩)
      true 3 1 0 rfl (by omega)).1
  · refine (retry_after_honored.1
      (fun i => if i = 0 then ⟨429, some 5, "rl"⟩ else ⟨200, none, "ok"⟩)
      true 3 1 0 rfl (by omega)).2 (some "ok") ?_
    simp [request]
  · exact retry_after_honored.2 (fun _ => ⟨429, none, "rl"⟩) true 3 0 0 rfl
      (by omega)

end Cafe24
